import Mathlib

/-!
# Verification of the Ennovar demand-forecasting system

Shallow embedding of the forecasting serving layer and the React dashboard
components (`ForecastPanel.jsx`, `InventoryBox.jsx`, `ForecastControls.jsx`),
together with the parts of the forecasting core that the repository documents
but does not ship under `src/` (those are modelled from the spec, as marked).

JavaScript numbers are modelled as `ℚ`, JS objects as association lists of
string keys, `null` as `Option`/an explicit `jnull` constructor.
-/

namespace Ennovar

/-- A JSON-like value, the shape of every payload exchanged between the React
client and the Flask serving layer. -/
inductive JVal where
  | jnull  : JVal
  | jbool  : Bool → JVal
  | jnum   : ℚ → JVal
  | jstr   : String → JVal
  | jarr   : List JVal → JVal
  | jobj   : List (String × JVal) → JVal
deriving Repr

/-- First-match lookup in a string-keyed association list, the semantics of
JavaScript property access on the objects we model. -/
def lookupStr {α : Type} : List (String × α) → String → Option α
  | [], _ => none
  | (k, v) :: rest, key => if k = key then some v else lookupStr rest key

/-- Property access `obj.field` on a modelled JS value: defined on objects,
`none` (undefined) elsewhere. -/
def JVal.getField : JVal → String → Option JVal
  | .jobj fs, key => lookupStr fs key
  | _, _ => none

/-! ## InventoryBox.jsx -/

/-- From `InventoryBox.jsx` line 4:
`currentInventory > 100 ? 'high' : currentInventory > 30 ? 'medium' : 'low'`. -/
def inventoryStatus (currentInventory : ℚ) : String :=
  if 100 < currentInventory then "high"
  else if 30 < currentInventory then "medium"
  else "low"

/-- From `InventoryBox.jsx` lines 5-9: the `statusColor` class map. -/
def statusColor : List (String × String) :=
  [("high", "text-green-600"), ("medium", "text-yellow-600"), ("low", "text-red-600")]

/-- From `InventoryBox.jsx` lines 10-14: the `statusBg` class map. -/
def statusBg : List (String × String) :=
  [("high", "bg-green-50"), ("medium", "bg-yellow-50"), ("low", "bg-red-50")]

/-! ## ForecastPanel.jsx: client-side logic -/

/-- The horizon values offered by the `<select>` in `ForecastPanel.jsx`
lines 170-172: 7, 14 and 30 days. -/
def horizonOptions : List Int := [7, 14, 30]

/-- The initial horizon state, `useState(7)` at `ForecastPanel.jsx` line 9. -/
def initialHorizon : Int := 7

/-- The selection state of the forecast panel that `generateForecast` reads:
`selectedCategory`, `selectedProduct` (empty string = "All Products")
and `horizon`. -/
structure PanelSelection where
  selectedCategory : String
  selectedProduct : String
  horizon : Int
deriving Repr, DecidableEq

/-- What the client does when the Generate button is pressed: either shows a
validation error locally, or sends a POST body to `/api/forecast/predict`. -/
inductive ClientAction where
  | showError (msg : String)
  | sendRequest (body : List (String × JVal))
deriving Repr

/-- From `ForecastPanel.jsx` lines 61-82 (`generateForecast`): an empty
`selectedCategory` is rejected with `'Please select a category'` and no
request is sent; otherwise the JSON body
`x7b category, product: selectedProduct || null, horizon x7d` is posted. -/
def generateForecast (s : PanelSelection) : ClientAction :=
  if s.selectedCategory = "" then
    .showError "Please select a category"
  else
    .sendRequest
      [("category", .jstr s.selectedCategory),
       ("product", if s.selectedProduct = "" then .jnull else .jstr s.selectedProduct),
       ("horizon", .jnum s.horizon)]

/-- From `ForecastPanel.jsx` lines 112 and 330: the client treats the model as
ready exactly when the status payload's `status` field is the string
`'available'` (`modelStatus.status === 'available'`). -/
def modelReady (resp : JVal) : Bool :=
  match resp.getField "status" with
  | some (.jstr s) => s == "available"
  | _ => false

/-! ## ForecastPanel.jsx: results table -/

/-- One forecast output row, the record shape of §6 of the spec:
`date, sku_id, product_type, category, forecast_horizon,
actual_quantity (nullable), predicted_quantity`. -/
structure ForecastRow where
  date : Nat
  sku_id : String
  product_type : String
  category : String
  forecast_horizon : Nat
  actual_quantity : Option ℚ
  predicted_quantity : ℚ
deriving Repr, DecidableEq

/-- From `ForecastPanel.jsx` lines 301-303: the Difference column value,
`item.actual_quantity !== null ? item.predicted_quantity - item.actual_quantity : null`. -/
def rowDiff (item : ForecastRow) : Option ℚ :=
  match item.actual_quantity with
  | some a => some (item.predicted_quantity - a)
  | none => none

/-- From `ForecastPanel.jsx` line 317: the rendered Difference cell,
`diff !== null ? (diff > 0 ? '+' : '') + diff.toFixed(0) : '-'`
(number formatting abstracted by `toString`). -/
def diffCell (item : ForecastRow) : String :=
  match rowDiff item with
  | some d => (if 0 < d then "+" else "") ++ toString d
  | none => "-"

/-! ## Forecasting core (spec-modelled)

The forecasting core (`demand_forecasting_model.py`, `predict.py`) and the
Flask route `backend/routes/forecast.py` are referenced throughout the
repository's documentation but are not shipped under `src/`; the definitions
below model them from the spec, as their doc comments state. -/

/-- One raw observation row, the collaborator contract of §6 of the spec:
`(sku_id, date, quantity, unit_price, promo_flag, category, sub_category)`,
time-ordered per sku. Dates are day numbers. -/
structure Observation where
  sku_id : String
  date : Nat
  quantity : ℚ
  unit_price : ℚ
  promo_flag : Bool
  category : String
  sub_category : String
deriving Repr, DecidableEq

/-- Modelled from the spec (§3, §6): the persisted ModelArtifact as seen by
the forecast generator — model type and training date metadata, the
authoritative feature schema, the trained regressor on the transformed
target scale (`rawPredict`), and the inverse of the target transform
(`invTransform`, e.g. `expm1`). The tree ensemble itself is opaque here. -/
structure Artifact where
  model_type : String
  trained_at : String
  featureColumns : List String
  rawPredict : String → Nat → ℚ
  invTransform : ℚ → ℚ

/-- Modelled from the spec (§4.5, §7): the closed set of supported forecast
horizons, 7, 14 and 30 periods. -/
def supportedHorizons : List Int := [7, 14, 30]

/-- Modelled from the spec (§4.1): the largest lag/window offset of the
feature set `x7b7,14,28,56,84x7d`; a sku with fewer history rows than this is
dropped (`InsufficientHistoryError`). -/
def maxLag : Nat := 84

/-- The history rows of one sku within an observation set. -/
def skuHistory (obs : List Observation) (sku : String) : List Observation :=
  obs.filter (fun o => o.sku_id == sku)

/-- Modelled from the spec (§4.1): a sku has sufficient history when it has
at least `maxLag` observation rows. -/
def hasSufficientHistory (obs : List Observation) (sku : String) : Bool :=
  maxLag ≤ (skuHistory obs sku).length

/-- The latest observed date of a sku (0 when the sku is absent). -/
def latestDate (obs : List Observation) (sku : String) : Nat :=
  ((skuHistory obs sku).map (·.date)).foldr max 0

/-- Ground-truth lookup: the quantity of the first observation of `sku` at
`date` in the inference data, if any. -/
def lookupActual (obs : List Observation) (sku : String) (date : Nat) : Option ℚ :=
  (obs.find? (fun o => o.sku_id == sku && o.date == date)).map (·.quantity)

/-- The category of a sku, read off its first observation row. -/
def categoryOf (obs : List Observation) (sku : String) : String :=
  ((obs.find? (fun o => o.sku_id == sku)).map (·.category)).getD ""

/-- The product-type label of a sku in the output record, read off the
sub_category of its first observation row. -/
def productTypeOf (obs : List Observation) (sku : String) : String :=
  ((obs.find? (fun o => o.sku_id == sku)).map (·.sub_category)).getD ""

/-- Modelled from the spec (§4.5): the horizon window of a sku — the `h`
dates ending at the sku's latest available observation, the held-out window
the generator predicts over. -/
def forecastDates (obs : List Observation) (sku : String) (h : Nat) : List Nat :=
  (List.range h).map (fun i => latestDate obs sku + 1 + i - h)

/-- Modelled from the spec (§4.5): the generator's rows for one sku —
one row per date of the horizon window, with the raw transformed prediction
inverse-transformed back to the demand scale and clamped at zero
(stated domain policy), and ground truth attached as `actual_quantity`
where the inference data has it. -/
def skuRows (a : Artifact) (obs : List Observation) (h : Nat) (sku : String) :
    List ForecastRow :=
  (forecastDates obs sku h).map (fun d =>
    { date := d
      sku_id := sku
      product_type := productTypeOf obs sku
      category := categoryOf obs sku
      forecast_horizon := h
      actual_quantity := lookupActual obs sku d
      predicted_quantity := max 0 (a.invTransform (a.rawPredict sku d)) })

/-- The distinct skus of the inference data, in first-appearance order. -/
def skusOf (obs : List Observation) : List String :=
  (obs.map (·.sku_id)).dedup

/-- Generator loop over a sku worklist: skus lacking sufficient history are
dropped (§4.1), the rest contribute their horizon-window rows. -/
def predictRowsAux (a : Artifact) (obs : List Observation) (h : Nat) :
    List String → List ForecastRow
  | [] => []
  | s :: rest =>
      (if hasSufficientHistory obs s then skuRows a obs h s else []) ++
        predictRowsAux a obs h rest

/-- Modelled from the spec (§4.5): `ForecastGenerator.predict` before
filtering — every sku of the inference data with sufficient history yields
its horizon-window rows. -/
def predictRows (a : Artifact) (obs : List Observation) (h : Nat) :
    List ForecastRow :=
  predictRowsAux a obs h (skusOf obs)

/-- Modelled from the spec (§4.5, §6): the request's category filter and
optional product filter applied to the generated rows; an all-excluding
filter yields an empty result set, not an error. -/
def applyFilter (category : String) (product : Option String)
    (rows : List ForecastRow) : List ForecastRow :=
  (rows.filter (fun r => r.category == category)).filter (fun r =>
    match product with
    | some p => r.product_type == p
    | none => true)

/-- The error taxonomy of §7 of the spec, as surfaced by the serving layer. -/
inductive ForecastError where
  | insufficientHistory
  | schemaMismatch
  | incompatibleArtifact
  | trainingDataEmpty
  | invalidHorizon
  | missingModel
deriving Repr, DecidableEq

/-- The error strings of the serving layer's failure payloads. -/
def errorMessage : ForecastError → String
  | .insufficientHistory => "InsufficientHistoryError"
  | .schemaMismatch => "SchemaMismatchError"
  | .incompatibleArtifact => "IncompatibleArtifactError"
  | .trainingDataEmpty => "TrainingDataEmptyError"
  | .invalidHorizon => "InvalidHorizonError"
  | .missingModel => "MissingModelError"

/-- Modelled from the spec (§4.5, §6, §7): the serving-layer predict
operation — no loaded artifact is `MissingModelError`, a horizon outside the
supported set is `InvalidHorizonError` with no partial output, and otherwise
the filtered generator rows are returned whole. -/
def predictCore (art : Option Artifact) (obs : List Observation)
    (category : String) (product : Option String) (horizon : Int) :
    Except ForecastError (List ForecastRow) :=
  match art with
  | none => .error .missingModel
  | some a =>
      if horizon ∈ supportedHorizons then
        .ok (applyFilter category product (predictRows a obs horizon.toNat))
      else
        .error .invalidHorizon

/-- One forecast row as the JSON the serving layer returns to the client;
the client's table reads `date`, `product_name`, `actual_quantity` and
`predicted_quantity` from it, with a null `actual_quantity` where no ground
truth exists. -/
def rowToJson (r : ForecastRow) : JVal :=
  .jobj
    [("date", .jnum r.date),
     ("product_name", .jstr r.product_type),
     ("category", .jstr r.category),
     ("forecast_horizon", .jnum r.forecast_horizon),
     ("actual_quantity",
       match r.actual_quantity with
       | some q => .jnum q
       | none => .jnull),
     ("predicted_quantity", .jnum r.predicted_quantity)]

/-- The summary block of a success payload: `total_predicted` always, and
`total_actual` exactly when some row carries ground truth. -/
def summaryFields (rows : List ForecastRow) : List (String × JVal) :=
  [("total_predicted", .jnum (rows.map (·.predicted_quantity)).sum)] ++
    (if rows.any (fun r => r.actual_quantity.isSome) then
      [("total_actual", .jnum (rows.filterMap (·.actual_quantity)).sum)]
     else [])

/-- Modelled from the spec (§6): the `/api/forecast/predict` response —
`x7bsuccess: true, forecast: [...], summary: x7b...x7dx7d` on success and
`x7bsuccess: false, error: ...x7d` on failure, mapping the §7 taxonomy. -/
def predictEndpoint (art : Option Artifact) (obs : List Observation)
    (category : String) (product : Option String) (horizon : Int) : JVal :=
  match predictCore art obs category product horizon with
  | .ok rows =>
      .jobj
        [("success", .jbool true),
         ("forecast", .jarr (rows.map rowToJson)),
         ("summary", .jobj (summaryFields rows))]
  | .error e =>
      .jobj
        [("success", .jbool false),
         ("error", .jstr (errorMessage e))]

/-- Modelled from the repository's API documentation and the client reader
in `ForecastPanel.jsx` (the route itself is not under `src/`): the
`/api/forecast/status` response carries availability as the string field
`status` — `x7b"status": "available", "model_type": ..., "trained_at": ...x7d`
when an artifact is loaded. -/
def statusEndpoint (art : Option Artifact) : JVal :=
  match art with
  | some a =>
      .jobj
        [("status", .jstr "available"),
         ("model_type", .jstr a.model_type),
         ("trained_at", .jstr a.trained_at)]
  | none => .jobj [("status", .jstr "unavailable")]

/-! ## ForecastControls.jsx: weeks-in-month

The component computes, via the JS `Date` object (proleptic Gregorian
calendar), `Math.ceil((lastDay.getDate() + firstDay.getDay()) / 7)` and
renders week labels `"1" .. "n"`. We embed the calendar arithmetic that
`new Date(year, month - 1, 1).getDay()` and `new Date(year, month, 0).getDate()`
perform. -/

/-- Gregorian leap-year rule, as implemented by the JS `Date` object. -/
def isLeapYear (y : Nat) : Bool :=
  (y % 4 == 0 && y % 100 != 0) || y % 400 == 0

/-- Number of days in month `m` (1-12) of year `y`: the value of
`new Date(year, month, 0).getDate()` for the 1-based `month = m`. -/
def daysInMonth (y m : Nat) : Nat :=
  if m = 2 then (if isLeapYear y then 29 else 28)
  else if m = 4 ∨ m = 6 ∨ m = 9 ∨ m = 11 then 30 else 31

/-- Days in the complete Gregorian years `1 .. y-1`. -/
def daysBeforeYear (y : Nat) : Nat :=
  let n := y - 1
  365 * n + n / 4 - n / 100 + n / 400

/-- Days in year `y` before the first of month `m`. -/
def daysBeforeMonth (y m : Nat) : Nat :=
  ((List.range (m - 1)).map (fun k => daysInMonth y (k + 1))).sum

/-- The value of `new Date(year, month - 1, 1).getDay()` for 1-based
`month = m`: the weekday index of the first of the month, 0 = Sunday.
Anchored so that 2000-01-01 is a Saturday (index 6), as JS computes. -/
def firstDayOfWeek (y m : Nat) : Nat :=
  (daysBeforeYear y + daysBeforeMonth y m + 1) % 7

/-- From `ForecastControls.jsx` line 35: the week count
`Math.ceil((lastDay.getDate() + firstDay.getDay()) / 7)`. -/
def weeksInMonth (y m : Nat) : Nat :=
  (daysInMonth y m + firstDayOfWeek y m + 6) / 7

/-- From `ForecastControls.jsx` lines 32-37 (`getWeeksInMonth`): the list of
week labels `"1" .. "n"` for the selected year and month,
`Array.from(x7b length: weeksInMonth x7d, (_, i) => (i + 1).toString())`. -/
def getWeeksInMonth (y m : Nat) : List String :=
  (List.range (weeksInMonth y m)).map (fun i => toString (i + 1))

/-! ## Concrete evaluation fixtures -/

/-- A small concrete artifact used to evaluate the theorems on closed
inputs: an identity inverse transform and a regressor that always predicts
`-1` on the transformed scale, exercising the non-negativity clamp. -/
def artifactW : Artifact :=
  { model_type := "XGBoost"
    trained_at := "2025-01-01"
    featureColumns := ["lag_7", "rolling_mean_7"]
    rawPredict := fun _ _ => -1
    invTransform := fun x => x }

/-- A concrete inference data set: 84 daily observations (dates 0-83) of the
single sku `"A"`, exactly enough history for the largest lag. -/
def obsW : List Observation :=
  (List.range 84).map (fun i =>
    { sku_id := "A", date := i, quantity := 1, unit_price := 2,
      promo_flag := false, category := "Beauty", sub_category := "Sunscreen" })

/-- The first generator row for `obsW` at horizon 7: date 77 of the held-out
window, ground truth attached, raw prediction `-1` clamped to 0. -/
def rowW : ForecastRow :=
  { date := 77, sku_id := "A", product_type := "Sunscreen",
    category := "Beauty", forecast_horizon := 7,
    actual_quantity := some 1, predicted_quantity := 0 }

/-- A table row with ground truth present, for evaluating the Difference
column. -/
def rowA : ForecastRow :=
  { date := 77, sku_id := "A", product_type := "Sunscreen",
    category := "Beauty", forecast_horizon := 7,
    actual_quantity := some 3, predicted_quantity := 5 }

/-- A table row without ground truth, for evaluating the Difference
column. -/
def rowB : ForecastRow :=
  { date := 78, sku_id := "A", product_type := "Sunscreen",
    category := "Beauty", forecast_horizon := 7,
    actual_quantity := none, predicted_quantity := 5 }

/-! ## Helper lemmas about the generator -/

theorem skuRows_length (a : Artifact) (obs : List Observation) (h : Nat)
    (s : String) : (skuRows a obs h s).length = h := by
  simp [skuRows, forecastDates]

theorem mem_skuRows {a : Artifact} {obs : List Observation} {h : Nat}
    {s : String} {r : ForecastRow} (hr : r ∈ skuRows a obs h s) :
    r.sku_id = s ∧ r.forecast_horizon = h ∧
    r.actual_quantity = lookupActual obs s r.date ∧
    ∃ x, r.predicted_quantity = max 0 x := by
  simp only [skuRows, forecastDates, List.mem_map, List.mem_range] at hr
  obtain ⟨d, -, rfl⟩ := hr
  exact ⟨rfl, rfl, rfl, _, rfl⟩

theorem mem_predictRowsAux {a : Artifact} {obs : List Observation} {h : Nat}
    {l : List String} {r : ForecastRow} :
    r ∈ predictRowsAux a obs h l ↔
      ∃ s ∈ l, hasSufficientHistory obs s = true ∧ r ∈ skuRows a obs h s := by
  induction l with
  | nil => simp [predictRowsAux]
  | cons s' rest ih =>
      by_cases hc : hasSufficientHistory obs s' = true
      · simp [predictRowsAux, if_pos hc, ih, hc]
      · simp [predictRowsAux, if_neg hc, ih]
        exact fun h1 _ => absurd h1 hc

theorem filter_skuRows_self (a : Artifact) (obs : List Observation) (h : Nat)
    (s : String) :
    (skuRows a obs h s).filter (fun r => r.sku_id == s) = skuRows a obs h s := by
  rw [List.filter_eq_self]
  intro r hr
  simp [(mem_skuRows hr).1]

theorem filter_skuRows_ne (a : Artifact) (obs : List Observation) (h : Nat)
    {s' s : String} (hne : s' ≠ s) :
    (skuRows a obs h s').filter (fun r => r.sku_id == s) = [] := by
  rw [List.filter_eq_nil_iff]
  intro r hr
  simp [(mem_skuRows hr).1, hne]

theorem filter_predictRowsAux_notmem (a : Artifact) (obs : List Observation)
    (h : Nat) {s : String} :
    ∀ {l : List String}, s ∉ l →
      (predictRowsAux a obs h l).filter (fun r => r.sku_id == s) = [] := by
  intro l
  induction l with
  | nil => intro _; rfl
  | cons s' rest ih =>
      intro hs
      have hne : s' ≠ s := fun e => hs (e ▸ List.mem_cons_self s' rest)
      have hrest : s ∉ rest := fun hm => hs (List.mem_cons_of_mem s' hm)
      rw [predictRowsAux, List.filter_append, ih hrest, List.append_nil]
      by_cases hc : hasSufficientHistory obs s' = true
      · rw [if_pos hc, filter_skuRows_ne a obs h hne]
      · rw [if_neg hc]; rfl

theorem predictRowsAux_count (a : Artifact) (obs : List Observation) (h : Nat)
    {s : String} (hh : hasSufficientHistory obs s = true) :
    ∀ {l : List String}, l.Nodup → s ∈ l →
      ((predictRowsAux a obs h l).filter (fun r => r.sku_id == s)).length = h := by
  intro l
  induction l with
  | nil => intro _ hs; exact absurd hs (List.not_mem_nil s)
  | cons s' rest ih =>
      intro hnd hs
      obtain ⟨hns, hndr⟩ := List.nodup_cons.mp hnd
      rw [predictRowsAux, List.filter_append, List.length_append]
      rcases List.mem_cons.mp hs with rfl | hmem
      · rw [if_pos hh, filter_skuRows_self, skuRows_length,
            filter_predictRowsAux_notmem a obs h hns]
        simp
      · have hne : s' ≠ s := fun e => hns (e ▸ hmem)
        rw [ih hndr hmem]
        by_cases hc : hasSufficientHistory obs s' = true
        · rw [if_pos hc, filter_skuRows_ne a obs h hne]; simp
        · rw [if_neg hc]; simp

/-! ## Claims -/

/-- C1: For every forecast request, the horizon must be one of the supported
discrete values (7, 14 or 30 periods); any other horizon (for example 10)
fails with `InvalidHorizonError` and produces no partial output, and the
client never offers or submits a horizon outside this set (its three
options and its initial state are all supported). -/
theorem C1_invalid_horizon_rejected (a : Artifact) (obs : List Observation)
    (c : String) (p : Option String) (h : Int)
    (hh : h ∉ supportedHorizons) :
    predictCore (some a) obs c p h = .error .invalidHorizon ∧
    (predictEndpoint (some a) obs c p h).getField "forecast" = none ∧
    (predictEndpoint (some a) obs c p h).getField "error" =
      some (.jstr "InvalidHorizonError") ∧
    initialHorizon ∈ supportedHorizons ∧
    ∀ o ∈ horizonOptions, o ∈ supportedHorizons := by
  have hcore : predictCore (some a) obs c p h = .error .invalidHorizon := by
    simp [predictCore, hh]
  refine ⟨hcore, ?_, ?_, by decide, by decide⟩ <;>
    simp [predictEndpoint, hcore, JVal.getField, lookupStr, errorMessage]

/-- Witness for C1 at the unsupported horizon 10. -/
theorem C1_invalid_horizon_rejected_witness :
    (10 : Int) ∉ supportedHorizons ∧
    predictCore (some artifactW) obsW "Beauty" none 10 = .error .invalidHorizon ∧
    (predictEndpoint (some artifactW) obsW "Beauty" none 10).getField "forecast" =
      none :=
  ⟨by decide,
   (C1_invalid_horizon_rejected artifactW obsW "Beauty" none 10 (by decide)).1,
   (C1_invalid_horizon_rejected artifactW obsW "Beauty" none 10 (by decide)).2.1⟩

/-- C2: Every serving-layer predict call either succeeds with
`success = true`, a `forecast` array and a `summary` carrying
`total_predicted`, or fails with `success = false` and an `error` field and
no `forecast` field at all — never a partial forecast. -/
theorem C2_predict_response_shape (art : Option Artifact)
    (obs : List Observation) (c : String) (p : Option String) (h : Int) :
    ((predictEndpoint art obs c p h).getField "success" = some (.jbool true) ∧
     (∃ xs, (predictEndpoint art obs c p h).getField "forecast" =
        some (.jarr xs)) ∧
     (∃ fs, (predictEndpoint art obs c p h).getField "summary" =
        some (.jobj fs) ∧ (lookupStr fs "total_predicted").isSome = true)) ∨
    ((predictEndpoint art obs c p h).getField "success" = some (.jbool false) ∧
     (∃ e, (predictEndpoint art obs c p h).getField "error" = some (.jstr e)) ∧
     (predictEndpoint art obs c p h).getField "forecast" = none) := by
  cases hres : predictCore art obs c p h with
  | ok rows =>
      left
      refine ⟨?_, ⟨rows.map rowToJson, ?_⟩, ⟨summaryFields rows, ?_, ?_⟩⟩ <;>
        simp [predictEndpoint, hres, JVal.getField, lookupStr, summaryFields]
  | error e =>
      right
      refine ⟨?_, ⟨errorMessage e, ?_⟩, ?_⟩ <;>
        simp [predictEndpoint, hres, JVal.getField, lookupStr]

/-- C3 counterexample: on the documented status payload of a loaded model,
the field `available` does not exist at all — availability travels in the
string field `status` instead. -/
theorem C3_available_field_missing :
    (statusEndpoint (some artifactW)).getField "available" = none ∧
    (statusEndpoint (some artifactW)).getField "status" =
      some (.jstr "available") := by
  exact ⟨rfl, rfl⟩

/-- C3 (amended): the status payload carries availability as the string
field `status`, equal to `"available"` exactly when an artifact is loaded
(which is how the client decides to show "Model Ready"); `model_type` and
`trained_at` accompany it on a loaded model; there is no boolean `available`
field. -/
theorem C3_status_amended (art : Option Artifact) :
    modelReady (statusEndpoint art) = art.isSome ∧
    (statusEndpoint art).getField "available" = none ∧
    (∀ a, art = some a →
      (statusEndpoint art).getField "model_type" = some (.jstr a.model_type) ∧
      (statusEndpoint art).getField "trained_at" = some (.jstr a.trained_at)) := by
  cases art with
  | none => exact ⟨rfl, rfl, fun a ha => by cases ha⟩
  | some a => exact ⟨rfl, rfl, fun b hb => by cases hb; exact ⟨rfl, rfl⟩⟩

/-- Witness for C3 (amended) on a concrete loaded artifact. -/
theorem C3_status_amended_witness :
    modelReady (statusEndpoint (some artifactW)) = (some artifactW).isSome ∧
    some artifactW = some artifactW ∧
    (statusEndpoint (some artifactW)).getField "model_type" =
      some (.jstr artifactW.model_type) :=
  ⟨(C3_status_amended (some artifactW)).1, rfl,
   ((C3_status_amended (some artifactW)).2.2 artifactW rfl).1⟩

/-- C4 counterexample: with no category selected (and no product), pressing
Generate does not produce a forecast request at all — the client stops with
the validation error `'Please select a category'`. -/
theorem C4_category_less_request_rejected :
    generateForecast ⟨"", "", 7⟩ = .showError "Please select a category" := by
  exact rfl

/-- C4 (amended): the product (sku) filter is optional — with a category
selected and no product, the request is sent with `product: null` — but the
category filter is required: an empty category is rejected client-side with
`'Please select a category'` and no request is sent. -/
theorem C4_product_optional_category_required (s : PanelSelection) :
    (s.selectedCategory = "" →
      generateForecast s = .showError "Please select a category") ∧
    (s.selectedCategory ≠ "" →
      generateForecast s =
        .sendRequest
          [("category", .jstr s.selectedCategory),
           ("product",
             if s.selectedProduct = "" then .jnull
             else .jstr s.selectedProduct),
           ("horizon", .jnum s.horizon)]) := by
  refine ⟨fun hc => ?_, fun hc => ?_⟩ <;> simp [generateForecast, hc]

/-- Witness for C4 (amended): a category-only selection is sent with a null
product, an empty selection is rejected. -/
theorem C4_product_optional_category_required_witness :
    (("" : String) = "" ∧
      generateForecast ⟨"", "", 7⟩ = .showError "Please select a category") ∧
    (("Beauty" : String) ≠ "" ∧
      generateForecast ⟨"Beauty", "", 14⟩ =
        .sendRequest
          [("category", .jstr "Beauty"), ("product", .jnull),
           ("horizon", .jnum 14)]) :=
  ⟨⟨rfl, (C4_product_optional_category_required ⟨"", "", 7⟩).1 rfl⟩,
   ⟨by decide,
    (C4_product_optional_category_required ⟨"Beauty", "", 14⟩).2 (by decide)⟩⟩

/-- C5: every generated forecast row has a non-negative predicted quantity —
negative raw predictions are clamped to zero before the row is returned. -/
theorem C5_nonnegativity (a : Artifact) (obs : List Observation) (h : Nat)
    (r : ForecastRow) (hr : r ∈ predictRows a obs h) :
    0 ≤ r.predicted_quantity := by
  have hr' : r ∈ predictRowsAux a obs h (skusOf obs) := hr
  obtain ⟨s, -, -, hrs⟩ := mem_predictRowsAux.mp hr'
  obtain ⟨-, -, -, x, hx⟩ := mem_skuRows hrs
  rw [hx]
  exact le_max_left 0 x

set_option maxRecDepth 40000 in
/-- Witness for C5: the first generated row of the concrete fixture, whose
raw prediction is -1 and whose returned prediction is the clamped 0. -/
theorem C5_nonnegativity_witness :
    rowW ∈ predictRows artifactW obsW 7 ∧ 0 ≤ rowW.predicted_quantity :=
  ⟨by decide, C5_nonnegativity artifactW obsW 7 rowW (by decide)⟩

/-- C6: in every generated forecast row, `actual_quantity` is present
exactly where a ground-truth observation for that (sku, date) exists in the
inference data — carrying that observation's quantity — while
`predicted_quantity` is always present (serialized as a number, never
null). -/
theorem C6_actual_exactly_from_ground_truth (a : Artifact)
    (obs : List Observation) (h : Nat) (r : ForecastRow)
    (hr : r ∈ predictRows a obs h) :
    (r.actual_quantity.isSome = true ↔
      ∃ o ∈ obs, o.sku_id = r.sku_id ∧ o.date = r.date) ∧
    (∀ q, r.actual_quantity = some q →
      ∃ o ∈ obs, o.sku_id = r.sku_id ∧ o.date = r.date ∧ o.quantity = q) ∧
    (rowToJson r).getField "predicted_quantity" =
      some (.jnum r.predicted_quantity) := by
  have hr' : r ∈ predictRowsAux a obs h (skusOf obs) := hr
  obtain ⟨s, -, -, hrs⟩ := mem_predictRowsAux.mp hr'
  obtain ⟨hsku, -, hact, -⟩ := mem_skuRows hrs
  subst hsku
  refine ⟨?_, ?_, rfl⟩
  · rw [hact]
    simp [lookupActual, List.find?_isSome]
  · intro q hq
    rw [hact] at hq
    simp only [lookupActual, Option.map_eq_some'] at hq
    obtain ⟨o, ho, hoq⟩ := hq
    have hom := List.mem_of_find?_eq_some ho
    have hop := List.find?_some ho
    simp only [Bool.and_eq_true, beq_iff_eq] at hop
    exact ⟨o, hom, hop.1, hop.2, hoq⟩

set_option maxRecDepth 40000 in
/-- Witness for C6: the fixture row at date 77 carries the ground truth 1
recorded for ("A", 77) in the observations. -/
theorem C6_actual_exactly_from_ground_truth_witness :
    rowW ∈ predictRows artifactW obsW 7 ∧
    rowW.actual_quantity.isSome = true ∧
    rowW.actual_quantity = some 1 :=
  ⟨by decide,
   ((C6_actual_exactly_from_ground_truth artifactW obsW 7 rowW
      (by decide)).1).mpr (by decide),
   rfl⟩

/-- C7: for every sku of the inference data with sufficient history, and
before any filter is applied, requesting horizon `h` yields exactly `h`
result rows for that sku. -/
theorem C7_h_rows_per_sku (a : Artifact) (obs : List Observation) (h : Nat)
    (s : String) (hs : s ∈ skusOf obs)
    (hh : hasSufficientHistory obs s = true) :
    ((predictRows a obs h).filter (fun r => r.sku_id == s)).length = h := by
  have hnd : (skusOf obs).Nodup := by
    rw [skusOf]; exact List.nodup_dedup _
  exact predictRowsAux_count a obs h hh hnd hs

set_option maxRecDepth 40000 in
/-- Witness for C7: the fixture sku "A" with 84 history rows yields exactly
7 rows at horizon 7. -/
theorem C7_h_rows_per_sku_witness :
    "A" ∈ skusOf obsW ∧ hasSufficientHistory obsW "A" = true ∧
    ((predictRows artifactW obsW 7).filter (fun r => r.sku_id == "A")).length =
      7 :=
  ⟨by decide, by decide,
   C7_h_rows_per_sku artifactW obsW 7 "A" (by decide) (by decide)⟩

/-- C8: in the results table, the Difference value is
`predicted_quantity - actual_quantity` when `actual_quantity` is non-null,
and is null — rendered as `'-'` — when `actual_quantity` is null. -/
theorem C8_difference_column (item : ForecastRow) :
    (∀ a, item.actual_quantity = some a →
      rowDiff item = some (item.predicted_quantity - a)) ∧
    (item.actual_quantity = none →
      rowDiff item = none ∧ diffCell item = "-") := by
  refine ⟨fun a ha => ?_, fun ha => ⟨?_, ?_⟩⟩ <;>
    simp [rowDiff, diffCell, ha]

/-- Witness for C8 on a row with ground truth (5 - 3) and a row without
(rendered '-'). -/
theorem C8_difference_column_witness :
    (rowA.actual_quantity = some 3 ∧ rowDiff rowA = some (5 - 3)) ∧
    (rowB.actual_quantity = none ∧ rowDiff rowB = none ∧ diffCell rowB = "-") :=
  ⟨⟨rfl, (C8_difference_column rowA).1 3 rfl⟩,
   ⟨rfl, (C8_difference_column rowB).2 rfl⟩⟩

/-- C9: every numeric inventory value gets exactly one stock status —
`high` exactly when above 100, `medium` exactly when above 30 and at most
100, `low` exactly when at most 30 — and the colour and background class
lookups on that status are always defined. -/
theorem C9_inventory_status_total (v : ℚ) :
    (inventoryStatus v = "high" ↔ 100 < v) ∧
    (inventoryStatus v = "medium" ↔ 30 < v ∧ v ≤ 100) ∧
    (inventoryStatus v = "low" ↔ v ≤ 30) ∧
    (lookupStr statusColor (inventoryStatus v)).isSome = true ∧
    (lookupStr statusBg (inventoryStatus v)).isSome = true := by
  by_cases h1 : (100 : ℚ) < v
  · have hs : inventoryStatus v = "high" := by simp [inventoryStatus, h1]
    rw [hs]
    exact ⟨⟨fun _ => h1, fun _ => rfl⟩,
           ⟨fun he => absurd he (by decide),
            fun hc => absurd h1 (not_lt.mpr hc.2)⟩,
           ⟨fun he => absurd he (by decide),
            fun hle => absurd h1 (not_lt.mpr (by linarith))⟩,
           by decide, by decide⟩
  · by_cases h2 : (30 : ℚ) < v
    · have hs : inventoryStatus v = "medium" := by
        simp [inventoryStatus, h1, h2]
      rw [hs]
      exact ⟨⟨fun he => absurd he (by decide), fun h100 => absurd h100 h1⟩,
             ⟨fun _ => ⟨h2, not_lt.mp h1⟩, fun _ => rfl⟩,
             ⟨fun he => absurd he (by decide),
              fun hle => absurd h2 (not_lt.mpr hle)⟩,
             by decide, by decide⟩
    · have hs : inventoryStatus v = "low" := by
        simp [inventoryStatus, h1, h2]
      rw [hs]
      exact ⟨⟨fun he => absurd he (by decide), fun h100 => absurd h100 h1⟩,
             ⟨fun he => absurd he (by decide), fun hc => absurd hc.1 h2⟩,
             ⟨fun _ => not_lt.mp h2, fun _ => rfl⟩,
             by decide, by decide⟩

theorem daysInMonth_bounds (y m : Nat) :
    28 ≤ daysInMonth y m ∧ daysInMonth y m ≤ 31 := by
  unfold daysInMonth
  split_ifs <;> omega

theorem firstDayOfWeek_lt (y m : Nat) : firstDayOfWeek y m < 7 :=
  Nat.mod_lt _ (by norm_num)

theorem ceil_div_seven (a : Nat) :
    ⌈(a : ℚ) / 7⌉ = (((a + 6) / 7 : Nat) : ℤ) := by
  set q := (a + 6) / 7 with hqdef
  have hdm := Nat.div_add_mod (a + 6) 7
  have hr : (a + 6) % 7 < 7 := Nat.mod_lt _ (by norm_num)
  have h1 : a ≤ 7 * q := by omega
  have h2 : 7 * q < a + 7 := by omega
  have h1q : (a : ℚ) ≤ 7 * (q : ℚ) := by exact_mod_cast h1
  have h2q : 7 * (q : ℚ) < (a : ℚ) + 7 := by exact_mod_cast h2
  rw [Int.ceil_eq_iff]
  constructor
  · rw [lt_div_iff₀ (by norm_num : (0:ℚ) < 7)]
    push_cast
    linarith
  · rw [div_le_iff₀ (by norm_num : (0:ℚ) < 7)]
    push_cast
    linarith

/-- C10: for every year and month 1-12, `getWeeksInMonth` returns the week
labels `"1"` through `"n"` where `n` is the ceiling of (days in the month
plus the weekday index of the month's first day) divided by 7, and `n` is
always between 4 and 6. -/
theorem C10_weeks_in_month (y m : Nat) (hm1 : 1 ≤ m) (hm2 : m ≤ 12) :
    getWeeksInMonth y m =
      (List.range (weeksInMonth y m)).map (fun i => toString (i + 1)) ∧
    (weeksInMonth y m : ℤ) =
      ⌈((daysInMonth y m + firstDayOfWeek y m : Nat) : ℚ) / 7⌉ ∧
    4 ≤ weeksInMonth y m ∧ weeksInMonth y m ≤ 6 := by
  have hd := daysInMonth_bounds y m
  have hw := firstDayOfWeek_lt y m
  refine ⟨rfl, ?_, ?_, ?_⟩
  · rw [ceil_div_seven]; rfl
  · unfold weeksInMonth; omega
  · unfold weeksInMonth; omega

/-- Witness for C10 at October 2025: 31 days, first day a Wednesday, so
5 week labels. -/
theorem C10_weeks_in_month_witness :
    1 ≤ 10 ∧ 10 ≤ 12 ∧
    (getWeeksInMonth 2025 10 =
      (List.range (weeksInMonth 2025 10)).map (fun i => toString (i + 1)) ∧
     (weeksInMonth 2025 10 : ℤ) =
      ⌈((daysInMonth 2025 10 + firstDayOfWeek 2025 10 : Nat) : ℚ) / 7⌉ ∧
     4 ≤ weeksInMonth 2025 10 ∧ weeksInMonth 2025 10 ≤ 6) ∧
    weeksInMonth 2025 10 = 5 :=
  ⟨by decide, by decide, C10_weeks_in_month 2025 10 (by decide) (by decide),
   by decide⟩

end Ennovar
